import Mathlib

/-!
Shallow embedding of the user service of the service-template repository,
translated from `internal/business/service/service.go`.

The relational store consumed through `us.db` is modelled as the list of rows
of the `users` table.  Every operation returns, besides its Go return value
(an `Except` of the domain error taxonomy), the table after the call and the
trace of store accesses it performed, so that claims about "no insert", "the
store is never consulted" or "the page requested from the store" are statable.

External collaborators (the `google/uuid` and `bcrypt` libraries) are modelled
by executable functions faithful to their documented contracts; the `auth`
package of the repository is not part of the sources and is modelled from the
spec where noted.
-/

/-- Go `time.Time` instants, modelled as Unix seconds.  `UTC()` changes the
displayed location of a Go `time.Time` but not the instant, so it is the
identity here; `Unix()` reads the instant; `Add(time.Hour)` adds 3600 s. -/
abbrev GoTime := Int

/-- Model of Go `t.UTC()`: same instant, location is not modelled. -/
def GoTime.utc (t : GoTime) : GoTime := t

/-- Model of Go `t.Unix()`. -/
def GoTime.unix (t : GoTime) : Int := t

/-- Model of Go `t.Add(time.Hour)`. -/
def GoTime.addHour (t : GoTime) : GoTime := t + 3600

/-- Model of a bcrypt hash (external library `golang.org/x/crypto/bcrypt`):
an opaque value that records the random salt of the call that produced it and
the password it was derived from, in verifiable form.  This captures the
library contract the service relies on: hashing the same password with
different salts gives different hashes, and verification succeeds exactly for
the hashed password. -/
structure BcryptHash where
  salt : Nat
  password : String
deriving DecidableEq, Repr

/-- Model of `bcrypt.GenerateFromPassword` (external library); the per-call
random salt is made an explicit argument. -/
def bcryptGenerateFromPassword (salt : Nat) (password : String) : BcryptHash :=
  ⟨salt, password⟩

/-- Model of `bcrypt.CompareHashAndPassword` (external library): `true` when
the password matches the hash (Go returns a nil error), `false` otherwise. -/
def bcryptCompareHashAndPassword (h : BcryptHash) (password : String) : Bool :=
  h.password == password

/-- ASCII hexadecimal digit test, as `xtob` of `github.com/google/uuid`. -/
def isHexDigit (c : Char) : Bool :=
  ('0' ≤ c && c ≤ '9') || ('a' ≤ c && c ≤ 'f') || ('A' ≤ c && c ≤ 'F')

/-- The 36-character hyphenated UUID shape `xxxxxxxx-xxxx-xxxx-xxxx-xxxxxxxxxxxx`:
hyphens at positions 8, 13, 18, 23 and hexadecimal digits everywhere else. -/
def validHyphenated (cs : List Char) : Bool :=
  cs.length == 36 &&
    (List.range 36).all fun i =>
      if i == 8 || i == 13 || i == 18 || i == 23 then cs.getD i ' ' == '-'
      else isHexDigit (cs.getD i ' ')

/-- Model of `uuid.Parse` succeeding (external library `github.com/google/uuid`),
at character level, which coincides with Go's byte-level checks on ASCII input:
length 36 is the hyphenated form; length 45 is the hyphenated form behind a
case-insensitive `urn:uuid:` head; length 38 wraps the hyphenated form in one
extra character on each side (only the leading one is skipped, as in the
library); length 32 is plain hexadecimal; everything else is rejected. -/
def uuidParseOk (s : String) : Bool :=
  let cs := s.toList
  if cs.length == 36 then validHyphenated cs
  else if cs.length == 45 then
    ((cs.take 9).map Char.toLower == "urn:uuid:".toList) && validHyphenated (cs.drop 9)
  else if cs.length == 38 then validHyphenated ((cs.drop 1).take 36)
  else if cs.length == 32 then cs.all isHexDigit
  else false

/-- The `User` entity, fields as read and written by `service.go`. -/
structure User where
  ID : String
  Name : String
  LastName : String
  Email : String
  Country : String
  PasswordHash : BcryptHash
  Roles : List String
  DateCreated : GoTime
  DateUpdated : GoTime
deriving DecidableEq, Repr

/-- The fields of `NewUserRequest` consumed by `userService.Create`. -/
structure NewUserRequest where
  Name : String
  LastName : String
  Email : String
  Country : String
  Password : String
  Roles : List String
deriving DecidableEq, Repr

/-- The fields of `UpdateUserRequest` consumed by `userService.Update`. -/
structure UpdateUserRequest where
  Name : String
  LastName : String
  Email : String
  Country : String
deriving DecidableEq, Repr

/-- `auth.Claims`: the JWT standard claim fields set by `Authenticate`
plus the `Roles` claim. -/
structure Claims where
  Issuer : String
  Subject : String
  Audience : String
  ExpiresAt : Int
  IssuedAt : Int
  Roles : List String
deriving DecidableEq, Repr

/-- Modelled from the spec: the `admin` role tag of the fixed role
vocabulary (`auth.RoleAdmin`, whose definition is outside the sources). -/
def RoleAdmin : String := "admin"

/-- Modelled from the spec: `auth.Claims.Authorized`, whose definition is
outside the sources.  Per the spec's AuthorizationGuard, a caller is
authorized for a role exactly when the claims' role set contains it. -/
def Claims.Authorized (c : Claims) (role : String) : Bool :=
  c.Roles.contains role

/-- The domain error taxonomy of `service.go` (`ErrNotFound`, `ErrInvalidID`,
`ErrDuplicatedEmail`, `ErrAuthenticationFailure`, `ErrForbidden`), plus
`wrapped` for non-domain failures surfaced through `errors.Wrap` with an
operation-context message. -/
inductive Err where
  | notFound
  | invalidID
  | duplicatedEmail
  | authenticationFailure
  | forbidden
  | wrapped (msg : String)
deriving DecidableEq, Repr

/-- One access to the store, named after the spec's store contract (§6). -/
inductive StoreOp where
  | countByEmail (email : String)
  | insert (u : User)
  | updateFields (id name lastName email country : String) (dateUpdated : GoTime)
  | deleteByID (id : String)
  | selectPage (offset limit : Int)
  | selectByID (id : String)
  | selectByEmail (email : String)
deriving DecidableEq, Repr

/-- Result of one service call: the Go return value, the `users` table after
the call, and the store accesses performed, in order. -/
structure OpResult (α : Type) where
  result : Except Err α
  db : List User
  trace : List StoreOp
deriving Repr

/-- The `SELECT COUNT(*) FROM users WHERE email=$1` query of `Create`:
case-sensitive exact equality, as SQL `=` on text. -/
def countByEmail (db : List User) (email : String) : Nat :=
  (db.filter fun u => u.Email == email).length

/-- `userService.Create`: reject when the email count is nonzero
(`ErrDuplicatedEmail`, before any insert), otherwise hash the password,
assemble the `User` with the freshly generated id and `now.UTC()` for both
timestamps, insert it, and return it.  The freshly generated `uuid.New()`
id and the bcrypt salt are explicit arguments, as both are random inputs. -/
def Create (db : List User) (nur : NewUserRequest) (now : GoTime)
    (newId : String) (salt : Nat) : OpResult User :=
  let numUsers := countByEmail db nur.Email
  if numUsers != 0 then
    ⟨.error .duplicatedEmail, db, [.countByEmail nur.Email]⟩
  else
    let hash := bcryptGenerateFromPassword salt nur.Password
    let u : User :=
      { ID := newId
        Name := nur.Name
        LastName := nur.LastName
        Email := nur.Email
        Country := nur.Country
        PasswordHash := hash
        Roles := nur.Roles
        DateCreated := now.utc
        DateUpdated := now.utc }
    ⟨.ok u, db ++ [u], [.countByEmail nur.Email, .insert u]⟩

/-- `userService.GetByID`: `ErrInvalidID` when `uuid.Parse` fails, with no
store access; `ErrForbidden` when the caller is neither admin-authorized nor
the target, with no store access; otherwise select by id, mapping an empty
result to `ErrNotFound`. -/
def GetByID (db : List User) (claims : Claims) (userID : String) : OpResult User :=
  if !uuidParseOk userID then
    ⟨.error .invalidID, db, []⟩
  else if !claims.Authorized RoleAdmin && claims.Subject != userID then
    ⟨.error .forbidden, db, []⟩
  else
    match db.find? fun u => u.ID == userID with
    | none => ⟨.error .notFound, db, [.selectByID userID]⟩
    | some u => ⟨.ok u, db, [.selectByID userID]⟩

/-- `userService.Delete`: the same id-syntax and authorization gates as
`GetByID`, then `DELETE FROM users WHERE user_id = $1`; deleting an absent id
is indistinguishable from success. -/
def Delete (db : List User) (claims : Claims) (userID : String) : OpResult Unit :=
  if !uuidParseOk userID then
    ⟨.error .invalidID, db, []⟩
  else if !claims.Authorized RoleAdmin && claims.Subject != userID then
    ⟨.error .forbidden, db, []⟩
  else
    ⟨.ok (), db.filter fun u => !(u.ID == userID), [.deleteByID userID]⟩

/-- `userService.Update`: fetch the target through `GetByID` (propagating its
error unchanged), overwrite `Name`, `Country`, `LastName`, `Email`, set
`DateUpdated := now.UTC()`, run the `UPDATE ... WHERE user_id=$6` statement on
the table, and return the updated value.  No email-uniqueness re-check. -/
def Update (db : List User) (claims : Claims) (userID : String)
    (uur : UpdateUserRequest) (now : GoTime) : OpResult User :=
  let g := GetByID db claims userID
  match g.result with
  | .error e => ⟨.error e, db, g.trace⟩
  | .ok u =>
    let u' : User :=
      { u with
        Name := uur.Name
        Country := uur.Country
        LastName := uur.LastName
        Email := uur.Email
        DateUpdated := now.utc }
    ⟨.ok u',
     db.map fun v =>
       if v.ID == u'.ID then
         { v with
           Name := u'.Name
           LastName := u'.LastName
           Email := u'.Email
           Country := u'.Country
           DateUpdated := u'.DateUpdated }
       else v,
     g.trace ++ [.updateFields u'.ID u'.Name u'.LastName u'.Email u'.Country u'.DateUpdated]⟩

/-- The `users` table in `ORDER BY user_id` order. -/
def orderedByID (db : List User) : List User :=
  List.insertionSort (fun a b => a.ID ≤ b.ID) db

/-- The store side of `SELECT * FROM users ORDER BY user_id OFFSET $1 ROWS
FETCH NEXT $2 ROWS ONLY`.  PostgreSQL rejects a negative OFFSET or FETCH
count, the one store failure `GetAll` can trigger by itself; that failure is
the `none` case.  Otherwise the rows sorted by id, after dropping `offset`
rows, at most `limit` of them. -/
def selectPage (db : List User) (offset limit : Int) : Option (List User) :=
  if offset < 0 ∨ limit < 0 then none
  else some (((orderedByID db).drop offset.toNat).take limit.toNat)

/-- Go `int` is 64 bits wide on the targeted platforms and its arithmetic
wraps around on overflow: `wrap64 n` is the representative of `n` modulo
`2 ^ 64` lying in `[-2 ^ 63, 2 ^ 63)`, the value a Go `int` holds after the
operation that produced `n` mathematically. -/
def wrap64 (n : Int) : Int := (n + 2 ^ 63) % 2 ^ 64 - 2 ^ 63

/-- `userService.GetAll`: compute `offset := (pageNumber - 1) * rowsPerPage`
in Go `int` arithmetic — the subtraction and the multiplication each wrap on
64-bit overflow — with no validation of either paging input, pass offset and
row count straight to the store, and wrap any store failure (`errors.Wrap`
with message `selecting users`). -/
def GetAll (db : List User) (pageNumber rowsPerPage : Int) : OpResult (List User) :=
  let offset := wrap64 (wrap64 (pageNumber - 1) * rowsPerPage)
  match selectPage db offset rowsPerPage with
  | none => ⟨.error (.wrapped "selecting users"), db, [.selectPage offset rowsPerPage]⟩
  | some users => ⟨.ok users, db, [.selectPage offset rowsPerPage]⟩

/-- `userService.getByEmail`: `SELECT * FROM users WHERE email = $1`,
mapping an empty result to `ErrNotFound`. -/
def getByEmail (db : List User) (email : String) : Except Err User × List StoreOp :=
  match db.find? fun u => u.Email == email with
  | none => (.error .notFound, [.selectByEmail email])
  | some u => (.ok u, [.selectByEmail email])

/-- `userService.Authenticate`: look the user up by email, folding
`ErrNotFound` into `ErrAuthenticationFailure` and wrapping any other store
error; verify the password, a mismatch again yielding
`ErrAuthenticationFailure`; on success build the claims with the fixed
issuer and audience strings, the user's id as subject, the user's roles,
`IssuedAt = now.Unix()` and `ExpiresAt = now.Add(time.Hour).Unix()`. -/
def Authenticate (db : List User) (now : GoTime) (email password : String) :
    OpResult Claims :=
  let g := getByEmail db email
  match g.1 with
  | .error e =>
    if e = .notFound then ⟨.error .authenticationFailure, db, g.2⟩
    else ⟨.error (.wrapped "selecting single user"), db, g.2⟩
  | .ok u =>
    if !bcryptCompareHashAndPassword u.PasswordHash password then
      ⟨.error .authenticationFailure, db, g.2⟩
    else
      ⟨.ok
        { Issuer := "service template"
          Subject := u.ID
          Audience := "clients"
          ExpiresAt := (now.addHour).unix
          IssuedAt := now.unix
          Roles := u.Roles },
       db, g.2⟩

/-! Concrete sample data used by witnesses and counterexamples. -/

/-- A syntactically valid user id. -/
def uuidA : String := "11111111-1111-1111-1111-111111111111"

/-- A second syntactically valid user id. -/
def uuidB : String := "22222222-2222-2222-2222-222222222222"

/-- A sample stored user with id `uuidA` and password `hunter2`. -/
def userA : User :=
  { ID := uuidA
    Name := "Ana"
    LastName := "Alvarez"
    Email := "ana@example.com"
    Country := "AR"
    PasswordHash := bcryptGenerateFromPassword 1 "hunter2"
    Roles := ["user"]
    DateCreated := 0
    DateUpdated := 0 }

/-- A second sample stored user with id `uuidB`. -/
def userB : User :=
  { ID := uuidB
    Name := "Bruno"
    LastName := "Bianchi"
    Email := "bruno@example.com"
    Country := "UY"
    PasswordHash := bcryptGenerateFromPassword 2 "letmein"
    Roles := ["user"]
    DateCreated := 0
    DateUpdated := 0 }

/-- A sample table holding `userA` and `userB`. -/
def dbAB : List User := [userA, userB]

/-- Claims of a non-admin caller whose subject is `uuidB`. -/
def claimsOtherB : Claims :=
  { Issuer := "service template"
    Subject := uuidB
    Audience := "clients"
    ExpiresAt := 3600
    IssuedAt := 0
    Roles := ["user"]
  }

/-- Claims of a caller whose subject is `uuidA` (self-access on `userA`). -/
def claimsSelfA : Claims :=
  { Issuer := "service template"
    Subject := uuidA
    Audience := "clients"
    ExpiresAt := 3600
    IssuedAt := 0
    Roles := ["user"]
  }

/-- A creation request reusing `userA`'s email. -/
def nurDup : NewUserRequest :=
  { Name := "Carla"
    LastName := "Costa"
    Email := "ana@example.com"
    Country := "CL"
    Password := "pass1234"
    Roles := ["user"]
  }

/-- A creation request with a fresh email. -/
def nurFresh : NewUserRequest :=
  { Name := "Dora"
    LastName := "Diaz"
    Email := "dora@example.com"
    Country := "BR"
    Password := "pass5678"
    Roles := ["user"]
  }

/-- A creation request with an empty roles list. -/
def nurNoRoles : NewUserRequest :=
  { Name := "Eva"
    LastName := "Entes"
    Email := "eva@example.com"
    Country := "PE"
    Password := "pass9090"
    Roles := []
  }

/-- An update request that moves the target onto `userB`'s email. -/
def uurToB : UpdateUserRequest :=
  { Name := "Ana Maria"
    LastName := "Alvarez"
    Email := "bruno@example.com"
    Country := "AR"
  }

/-! Helper lemmas about the id-syntax and authorization gates. -/

theorem getByID_invalid (db : List User) (claims : Claims) (userID : String)
    (h : uuidParseOk userID = false) :
    GetByID db claims userID = ⟨.error .invalidID, db, []⟩ := by
  simp [GetByID, h]

theorem delete_invalid (db : List User) (claims : Claims) (userID : String)
    (h : uuidParseOk userID = false) :
    Delete db claims userID = ⟨.error .invalidID, db, []⟩ := by
  simp [Delete, h]

theorem getByID_ok (db : List User) (claims : Claims) (userID : String) (u : User)
    (hid : uuidParseOk userID = true)
    (hauth : claims.Authorized RoleAdmin = true ∨ claims.Subject = userID)
    (hfind : db.find? (fun v => v.ID == userID) = some u) :
    GetByID db claims userID = ⟨.ok u, db, [.selectByID userID]⟩ := by
  have hgate : (!claims.Authorized RoleAdmin && claims.Subject != userID) = false := by
    rcases hauth with hA | hS
    · simp [hA]
    · simp [hS]
  simp [GetByID, hid, hgate, hfind]

theorem getByID_forbidden_iff (db : List User) (claims : Claims) (userID : String)
    (hid : uuidParseOk userID = true) :
    ((GetByID db claims userID).result = .error .forbidden ↔
      claims.Authorized RoleAdmin = false ∧ claims.Subject ≠ userID) := by
  unfold GetByID
  rw [hid]
  cases hA : claims.Authorized RoleAdmin with
  | true =>
    cases hfind : db.find? (fun v => v.ID == userID) <;> simp [hA, hfind]
  | false =>
    by_cases hS : claims.Subject = userID
    · cases hfind : db.find? (fun v => v.ID == userID) <;> simp [hA, hS, hfind]
    · have hb : (claims.Subject != userID) = true := by simpa using hS
      simp [hA, hb, hS]

theorem delete_forbidden_iff (db : List User) (claims : Claims) (userID : String)
    (hid : uuidParseOk userID = true) :
    ((Delete db claims userID).result = .error .forbidden ↔
      claims.Authorized RoleAdmin = false ∧ claims.Subject ≠ userID) := by
  unfold Delete
  rw [hid]
  cases hA : claims.Authorized RoleAdmin with
  | true => simp [hA]
  | false =>
    by_cases hS : claims.Subject = userID
    · simp [hA, hS]
    · have : (claims.Subject != userID) = true := by simpa using hS
      simp [hA, this, hS]

theorem update_forbidden_iff (db : List User) (claims : Claims) (userID : String)
    (uur : UpdateUserRequest) (now : GoTime)
    (hid : uuidParseOk userID = true) :
    ((Update db claims userID uur now).result = .error .forbidden ↔
      claims.Authorized RoleAdmin = false ∧ claims.Subject ≠ userID) := by
  rw [← getByID_forbidden_iff db claims userID hid]
  unfold Update
  cases hg : (GetByID db claims userID).result with
  | error e => simp [hg]
  | ok u => simp [hg]

/-- Claim C2: for every email with no matching user, and for every stored user
found by email whose password verification fails, `Authenticate` returns
exactly `ErrAuthenticationFailure`, never `ErrNotFound`. -/
theorem authenticate_failure_indistinguishable (db : List User) (now : GoTime)
    (email password : String)
    (h : Option.all (fun u => !bcryptCompareHashAndPassword u.PasswordHash password)
        (db.find? fun u => u.Email == email) = true) :
    (Authenticate db now email password).result = .error .authenticationFailure := by
  cases hfind : db.find? fun u => u.Email == email with
  | none => simp [Authenticate, getByEmail, hfind]
  | some u =>
    rw [hfind] at h
    simp only [Option.all] at h
    simp [Authenticate, getByEmail, hfind, h]

/-- Witness for C2: on the table `dbAB`, an unknown email and a wrong
password for `userA`'s email both map to `ErrAuthenticationFailure`. -/
theorem authenticate_failure_indistinguishable_witness :
    Option.all (fun u => !bcryptCompareHashAndPassword u.PasswordHash "wrongpass")
        (dbAB.find? fun u => u.Email == "ana@example.com") = true ∧
    (Authenticate dbAB 5 "ana@example.com" "wrongpass").result =
      .error .authenticationFailure :=
  ⟨by decide,
   authenticate_failure_indistinguishable dbAB 5 "ana@example.com" "wrongpass" (by decide)⟩

/-- Claim C3: for every stored user found by email whose password verifies,
`Authenticate` returns claims with subject the user's id, the user's roles,
`IssuedAt = now`, `ExpiresAt` exactly one hour later, and the fixed issuer
and audience strings. -/
theorem authenticate_success_claims (db : List User) (now : GoTime)
    (email password : String) (u : User)
    (hfind : db.find? (fun v => v.Email == email) = some u)
    (hverify : bcryptCompareHashAndPassword u.PasswordHash password = true) :
    (Authenticate db now email password).result =
      .ok
        { Issuer := "service template"
          Subject := u.ID
          Audience := "clients"
          ExpiresAt := (now.addHour).unix
          IssuedAt := now.unix
          Roles := u.Roles } ∧
    (now.addHour).unix = now.unix + 3600 := by
  constructor
  · simp [Authenticate, getByEmail, hfind, hverify]
  · rfl

/-- Witness for C3: authenticating `userA` with the right password at time 5
yields claims for `uuidA` expiring at 3605. -/
theorem authenticate_success_claims_witness :
    dbAB.find? (fun v => v.Email == "ana@example.com") = some userA ∧
    bcryptCompareHashAndPassword userA.PasswordHash "hunter2" = true ∧
    ((Authenticate dbAB 5 "ana@example.com" "hunter2").result =
        .ok
          { Issuer := "service template"
            Subject := userA.ID
            Audience := "clients"
            ExpiresAt := (GoTime.addHour 5).unix
            IssuedAt := (5 : GoTime).unix
            Roles := userA.Roles } ∧
      (GoTime.addHour 5).unix = (5 : GoTime).unix + 3600) :=
  ⟨by decide, by decide,
   authenticate_success_claims dbAB 5 "ana@example.com" "hunter2" userA
     (by decide) (by decide)⟩

/-- Claim C4: whenever at least one stored user already has the requested
email (case-sensitive exact match), `Create` returns `ErrDuplicatedEmail`,
leaves the table unchanged, and its only store access is the email count. -/
theorem create_duplicated_email (db : List User) (nur : NewUserRequest)
    (now : GoTime) (newId : String) (salt : Nat)
    (h : countByEmail db nur.Email ≠ 0) :
    (Create db nur now newId salt).result = .error .duplicatedEmail ∧
    (Create db nur now newId salt).db = db ∧
    (Create db nur now newId salt).trace = [.countByEmail nur.Email] := by
  have hb : (countByEmail db nur.Email != 0) = true := by simpa using h
  refine ⟨?_, ?_, ?_⟩ <;> simp [Create, hb]

/-- Witness for C4: creating with `userA`'s email on `dbAB` is rejected and
mutates nothing. -/
theorem create_duplicated_email_witness :
    countByEmail dbAB nurDup.Email ≠ 0 ∧
    ((Create dbAB nurDup 7 uuidB 9).result = .error .duplicatedEmail ∧
      (Create dbAB nurDup 7 uuidB 9).db = dbAB ∧
      (Create dbAB nurDup 7 uuidB 9).trace = [.countByEmail nurDup.Email]) :=
  ⟨by decide, create_duplicated_email dbAB nurDup 7 uuidB 9 (by decide)⟩

/-- Claim C1: for every caller claims and every syntactically valid target
userID, `GetByID`, `Delete` and `Update` return `ErrForbidden` exactly when
the caller's roles lack `admin` and the caller's subject differs from the
target; an admin caller or a self-accessing caller is never denied. -/
theorem forbidden_iff_not_admin_not_self (db : List User) (claims : Claims)
    (userID : String) (uur : UpdateUserRequest) (now : GoTime)
    (hid : uuidParseOk userID = true) :
    ((GetByID db claims userID).result = .error .forbidden ↔
      claims.Authorized RoleAdmin = false ∧ claims.Subject ≠ userID) ∧
    ((Delete db claims userID).result = .error .forbidden ↔
      claims.Authorized RoleAdmin = false ∧ claims.Subject ≠ userID) ∧
    ((Update db claims userID uur now).result = .error .forbidden ↔
      claims.Authorized RoleAdmin = false ∧ claims.Subject ≠ userID) :=
  ⟨getByID_forbidden_iff db claims userID hid,
   delete_forbidden_iff db claims userID hid,
   update_forbidden_iff db claims userID uur now hid⟩

/-- Witness for C1: a non-admin caller with subject `uuidB` acting on
`uuidA`. -/
theorem forbidden_iff_not_admin_not_self_witness :
    uuidParseOk uuidA = true ∧
    (((GetByID dbAB claimsOtherB uuidA).result = .error .forbidden ↔
        claimsOtherB.Authorized RoleAdmin = false ∧ claimsOtherB.Subject ≠ uuidA) ∧
      ((Delete dbAB claimsOtherB uuidA).result = .error .forbidden ↔
        claimsOtherB.Authorized RoleAdmin = false ∧ claimsOtherB.Subject ≠ uuidA) ∧
      ((Update dbAB claimsOtherB uuidA uurToB 9).result = .error .forbidden ↔
        claimsOtherB.Authorized RoleAdmin = false ∧ claimsOtherB.Subject ≠ uuidA)) :=
  ⟨by decide,
   forbidden_iff_not_admin_not_self dbAB claimsOtherB uuidA uurToB 9 (by decide)⟩

/-- Counterexample for C5: the `User` value returned by a successful `Create`
does carry the generated password hash. -/
theorem create_returns_password_hash_cex :
    (Create [] nurFresh 3 uuidB 7).result.map (fun u => u.PasswordHash) =
      Except.ok (bcryptGenerateFromPassword 7 nurFresh.Password) := rfl

/-- Claim C5, amended: the `User` value a successful `Create` returns carries
the generated password hash in its `PasswordHash` field; the service layer
does not strip it, so keeping it from leaving the caller-facing boundary is
the job of layers outside this one. -/
theorem create_result_carries_hash (db : List User) (nur : NewUserRequest)
    (now : GoTime) (newId : String) (salt : Nat)
    (h : countByEmail db nur.Email = 0) :
    (Create db nur now newId salt).result.map (fun u => u.PasswordHash) =
      Except.ok (bcryptGenerateFromPassword salt nur.Password) := by
  simp [Create, h, Except.map]

/-- Witness for the amended C5: creating `nurFresh` on the empty table
returns a user holding the salt-7 hash of its password. -/
theorem create_result_carries_hash_witness :
    countByEmail [] nurFresh.Email = 0 ∧
    (Create [] nurFresh 3 uuidB 7).result.map (fun u => u.PasswordHash) =
      Except.ok (bcryptGenerateFromPassword 7 nurFresh.Password) :=
  ⟨by decide, create_result_carries_hash [] nurFresh 3 uuidB 7 (by decide)⟩

/-- Claim C6: for every syntactically invalid userID, `GetByID` and `Delete`
return `ErrInvalidID` whatever the caller's claims, perform no store access,
and leave the table untouched. -/
theorem invalid_id_short_circuits (db : List User) (claims : Claims)
    (userID : String) (h : uuidParseOk userID = false) :
    (GetByID db claims userID).result = .error .invalidID ∧
    (GetByID db claims userID).trace = [] ∧
    (GetByID db claims userID).db = db ∧
    (Delete db claims userID).result = .error .invalidID ∧
    (Delete db claims userID).trace = [] ∧
    (Delete db claims userID).db = db := by
  rw [getByID_invalid db claims userID h, delete_invalid db claims userID h]
  exact ⟨rfl, rfl, rfl, rfl, rfl, rfl⟩

/-- Witness for C6: the malformed id `zzz`, under a non-admin caller. -/
theorem invalid_id_short_circuits_witness :
    uuidParseOk "zzz" = false ∧
    ((GetByID dbAB claimsOtherB "zzz").result = .error .invalidID ∧
      (GetByID dbAB claimsOtherB "zzz").trace = [] ∧
      (GetByID dbAB claimsOtherB "zzz").db = dbAB ∧
      (Delete dbAB claimsOtherB "zzz").result = .error .invalidID ∧
      (Delete dbAB claimsOtherB "zzz").trace = [] ∧
      (Delete dbAB claimsOtherB "zzz").db = dbAB) :=
  ⟨by decide, invalid_id_short_circuits dbAB claimsOtherB "zzz" (by decide)⟩

/-- Claim C7: for an authorized caller, a valid target id and a stored target
user, `Update` fetches the target through `GetByID`, overwrites the profile
fields with the request's values, sets `DateUpdated` to now in UTC, persists
exactly those fields, returns the updated user, and never checks email
uniqueness, so it cannot fail with `ErrDuplicatedEmail`. -/
theorem update_overwrites_profile (db : List User) (claims : Claims)
    (userID : String) (uur : UpdateUserRequest) (now : GoTime) (u : User)
    (hid : uuidParseOk userID = true)
    (hauth : claims.Authorized RoleAdmin = true ∨ claims.Subject = userID)
    (hfind : db.find? (fun v => v.ID == userID) = some u) :
    (Update db claims userID uur now).result =
      .ok
        { u with
          Name := uur.Name
          Country := uur.Country
          LastName := uur.LastName
          Email := uur.Email
          DateUpdated := now.utc } ∧
    (Update db claims userID uur now).db =
      (db.map fun v =>
        if v.ID == u.ID then
          { v with
            Name := uur.Name
            LastName := uur.LastName
            Email := uur.Email
            Country := uur.Country
            DateUpdated := now.utc }
        else v) ∧
    (Update db claims userID uur now).trace =
      [.selectByID userID,
       .updateFields u.ID uur.Name uur.LastName uur.Email uur.Country now.utc] ∧
    (Update db claims userID uur now).result ≠ .error .duplicatedEmail := by
  have hg := getByID_ok db claims userID u hid hauth hfind
  unfold Update
  rw [hg]
  exact ⟨rfl, rfl, rfl, by simp⟩

/-- Witness for C7: `userA` updates itself onto `userB`'s email, which is
already in use on the table, and the update still succeeds. -/
theorem update_overwrites_profile_witness :
    uuidParseOk uuidA = true ∧
    (claimsSelfA.Authorized RoleAdmin = true ∨ claimsSelfA.Subject = uuidA) ∧
    dbAB.find? (fun v => v.ID == uuidA) = some userA ∧
    countByEmail dbAB uurToB.Email ≠ 0 ∧
    ((Update dbAB claimsSelfA uuidA uurToB 11).result =
        .ok
          { userA with
            Name := uurToB.Name
            Country := uurToB.Country
            LastName := uurToB.LastName
            Email := uurToB.Email
            DateUpdated := (11 : GoTime).utc } ∧
      (Update dbAB claimsSelfA uuidA uurToB 11).db =
        (dbAB.map fun v =>
          if v.ID == userA.ID then
            { v with
              Name := uurToB.Name
              LastName := uurToB.LastName
              Email := uurToB.Email
              Country := uurToB.Country
              DateUpdated := (11 : GoTime).utc }
          else v) ∧
      (Update dbAB claimsSelfA uuidA uurToB 11).trace =
        [.selectByID uuidA,
         .updateFields userA.ID uurToB.Name uurToB.LastName uurToB.Email
           uurToB.Country (11 : GoTime).utc] ∧
      (Update dbAB claimsSelfA uuidA uurToB 11).result ≠ .error .duplicatedEmail) :=
  ⟨by decide, by decide, by decide, by decide,
   update_overwrites_profile dbAB claimsSelfA uuidA uurToB 11 userA
     (by decide) (by decide) (by decide)⟩

instance : IsTotal User fun a b => a.ID ≤ b.ID :=
  ⟨fun a b => le_total a.ID b.ID⟩

instance : IsTrans User fun a b => a.ID ≤ b.ID :=
  ⟨fun _ _ _ hab hbc => le_trans hab hbc⟩

theorem wrap64_eq_self (n : Int) (hlo : -(2 ^ 63) ≤ n) (hhi : n < 2 ^ 63) :
    wrap64 n = n := by
  have h64 : (2 : Int) ^ 64 = 2 ^ 63 + 2 ^ 63 := by norm_num
  unfold wrap64
  rw [Int.emod_eq_of_lt (by linarith) (by rw [h64]; linarith)]
  ring

theorem sorted_orderedByID_page (db : List User) (o l : Nat) :
    List.Sorted (fun a b : User => a.ID ≤ b.ID) (((orderedByID db).drop o).take l) := by
  have hs : List.Sorted (fun a b : User => a.ID ≤ b.ID) (orderedByID db) :=
    List.sorted_insertionSort _ db
  have hsub : List.Sublist (((orderedByID db).drop o).take l) (orderedByID db) :=
    (List.take_sublist _ _).trans (List.drop_sublist _ _)
  exact List.Pairwise.sublist hsub hs

/-- Counterexample for C8: at pageNumber `2 ^ 62 + 1` and rowsPerPage 4 —
both representable Go ints with pageNumber ≥ 1 — the 64-bit product wraps to
0, so `GetAll` asks the store for offset 0, not for the mathematical offset
`(pageNumber - 1) * rowsPerPage = 2 ^ 64`. -/
theorem getAll_paging_overflow_cex :
    (GetAll [] (2 ^ 62 + 1) 4).trace = [StoreOp.selectPage 0 4] ∧
    (0 : Int) ≠ ((2 ^ 62 + 1) - 1) * 4 :=
  ⟨by decide, by decide⟩

/-- Claim C8, amended: for every pageNumber ≥ 1 and non-negative rowsPerPage,
both below `2 ^ 63`, whose product `(pageNumber - 1) * rowsPerPage` also stays
below `2 ^ 63` (no 64-bit overflow), `GetAll` asks the store for the page at
offset `(pageNumber - 1) * rowsPerPage` with limit `rowsPerPage`, and returns
exactly those rows of the id-ordered table: a possibly-empty list sorted by id
ascending.  At overflowing inputs the requested offset is the wrapped product
instead. -/
theorem getAll_paging (db : List User) (p r : Int) (h1 : 1 ≤ p) (h2 : 0 ≤ r)
    (h3 : p < 2 ^ 63) (h4 : r < 2 ^ 63) (h5 : (p - 1) * r < 2 ^ 63) :
    (GetAll db p r).trace = [StoreOp.selectPage ((p - 1) * r) r] ∧
    (GetAll db p r).result =
      .ok (((orderedByID db).drop ((p - 1) * r).toNat).take r.toNat) ∧
    List.Sorted (fun a b : User => a.ID ≤ b.ID)
      (((orderedByID db).drop ((p - 1) * r).toNat).take r.toNat) := by
  have hpos : (0 : Int) < 2 ^ 63 := by positivity
  have hp1 : wrap64 (p - 1) = p - 1 :=
    wrap64_eq_self _ (by linarith) (by linarith)
  have ho : 0 ≤ (p - 1) * r := mul_nonneg (by linarith) h2
  have hprod : wrap64 ((p - 1) * r) = (p - 1) * r :=
    wrap64_eq_self _ (by linarith) h5
  have hoffs : wrap64 (wrap64 (p - 1) * r) = (p - 1) * r := by
    rw [hp1, hprod]
  have hno : ¬((p - 1) * r < 0 ∨ r < 0) := by
    rintro (hc | hc) <;> omega
  have hsel : selectPage db ((p - 1) * r) r =
      some (((orderedByID db).drop ((p - 1) * r).toNat).take r.toNat) := by
    simp [selectPage, hno]
  simp only [GetAll]
  rw [hoffs, hsel]
  exact ⟨rfl, rfl, sorted_orderedByID_page db _ _⟩

/-- Witness for the amended C8: page 2 of 10 rows asks the store for offset
10 and limit 10, the 11th through 20th id-ordered records. -/
theorem getAll_paging_witness :
    1 ≤ (2 : Int) ∧ 0 ≤ (10 : Int) ∧ (2 : Int) < 2 ^ 63 ∧ (10 : Int) < 2 ^ 63 ∧
    ((2 : Int) - 1) * 10 < 2 ^ 63 ∧ ((2 : Int) - 1) * 10 = 10 ∧
    ((GetAll dbAB 2 10).trace = [StoreOp.selectPage (((2 : Int) - 1) * 10) 10] ∧
      (GetAll dbAB 2 10).result =
        .ok (((orderedByID dbAB).drop ((((2 : Int) - 1) * 10)).toNat).take (10 : Int).toNat) ∧
      List.Sorted (fun a b : User => a.ID ≤ b.ID)
        (((orderedByID dbAB).drop ((((2 : Int) - 1) * 10)).toNat).take (10 : Int).toNat)) :=
  ⟨by decide, by decide, by decide, by decide, by decide, by decide,
   getAll_paging dbAB 2 10 (by decide) (by decide) (by decide) (by decide) (by decide)⟩

/-- Counterexample for C9: `Create` accepts a request with an empty roles
list, and the user it inserts has empty roles. -/
theorem create_empty_roles_cex :
    (Create [] nurNoRoles 4 uuidB 3).db.map (fun u => u.Roles) = [[]] ∧
    (Create [] nurNoRoles 4 uuidB 3).result.map (fun u => u.Roles) =
      Except.ok [] :=
  ⟨rfl, rfl⟩

/-- Claim C9, amended: `Create` copies the request's roles into the inserted
`User` verbatim and enforces no non-emptiness, so the users it produces and
inserts have non-empty roles exactly when the request's roles are non-empty;
any non-emptiness guarantee must come from validation outside this layer. -/
theorem create_copies_roles (db : List User) (nur : NewUserRequest)
    (now : GoTime) (newId : String) (salt : Nat)
    (h : countByEmail db nur.Email = 0) :
    (Create db nur now newId salt).result.map (fun u => u.Roles) =
      Except.ok nur.Roles := by
  simp [Create, h, Except.map]

/-- Witness for the amended C9: `nurFresh` carries role `user`, and so does
the user `Create` returns for it. -/
theorem create_copies_roles_witness :
    countByEmail [] nurFresh.Email = 0 ∧
    (Create [] nurFresh 4 uuidB 3).result.map (fun u => u.Roles) =
      Except.ok nurFresh.Roles :=
  ⟨by decide, create_copies_roles [] nurFresh 4 uuidB 3 (by decide)⟩

/-- Counterexample for C10: at pageNumber `-(2 ^ 63)` — the minimum Go int,
which is ≤ 0 — with rowsPerPage 1, the subtraction `pageNumber - 1` wraps to
`2 ^ 63 - 1`, so `GetAll` passes a positive offset to the store and the call
succeeds with an empty page instead of computing a negative offset and
surfacing a wrapped store error. -/
theorem getAll_negative_page_wrap_cex :
    (GetAll [] (-(2 ^ 63)) 1).trace = [StoreOp.selectPage (2 ^ 63 - 1) 1] ∧
    (GetAll [] (-(2 ^ 63)) 1).result = .ok [] ∧
    ¬((2 ^ 63 - 1 : Int) < 0) :=
  ⟨by decide, rfl, by decide⟩

/-- Claim C10, amended: `GetAll` validates neither paging input: for every
pageNumber ≤ 0 strictly above `-(2 ^ 63)` (so the subtraction does not wrap)
with positive rowsPerPage below `2 ^ 63`, such that the product
`(pageNumber - 1) * rowsPerPage` stays at or above `-(2 ^ 63)` (no 64-bit
overflow), it computes that negative offset, passes it straight to the store,
and the failure surfaces as the wrapped store error, not as `ErrInvalidID` or
any other domain error.  At pageNumber `-(2 ^ 63)` the subtraction wraps, the
offset is positive, and the call can succeed. -/
theorem getAll_no_input_validation (db : List User) (p r : Int)
    (h1 : p ≤ 0) (h2 : 0 < r) (h3 : -(2 ^ 63) < p) (_h4 : r < 2 ^ 63)
    (h5 : -(2 ^ 63) ≤ (p - 1) * r) :
    (p - 1) * r < 0 ∧
    (GetAll db p r).trace = [StoreOp.selectPage ((p - 1) * r) r] ∧
    (GetAll db p r).result = .error (.wrapped "selecting users") ∧
    (GetAll db p r).result ≠ .error .invalidID := by
  have hpos : (0 : Int) < 2 ^ 63 := by positivity
  have hneg : (p - 1) * r < 0 := mul_neg_of_neg_of_pos (by linarith) h2
  have hp1 : wrap64 (p - 1) = p - 1 :=
    wrap64_eq_self _ (by linarith) (by linarith)
  have hprod : wrap64 ((p - 1) * r) = (p - 1) * r :=
    wrap64_eq_self _ h5 (by linarith)
  have hoffs : wrap64 (wrap64 (p - 1) * r) = (p - 1) * r := by
    rw [hp1, hprod]
  have hsel : selectPage db ((p - 1) * r) r = none := by
    simp [selectPage, Or.inl hneg]
  simp only [GetAll]
  rw [hoffs, hsel]
  exact ⟨hneg, rfl, rfl, by simp⟩

/-- Witness for the amended C10: page 0 of 10 rows asks the store for offset
-10 and surfaces the wrapped store failure. -/
theorem getAll_no_input_validation_witness :
    (0 : Int) ≤ 0 ∧ 0 < (10 : Int) ∧ -((2 : Int) ^ 63) < 0 ∧ (10 : Int) < 2 ^ 63 ∧
    -((2 : Int) ^ 63) ≤ ((0 : Int) - 1) * 10 ∧ ((0 : Int) - 1) * 10 = -10 ∧
    (((0 : Int) - 1) * 10 < 0 ∧
      (GetAll dbAB 0 10).trace = [StoreOp.selectPage (((0 : Int) - 1) * 10) 10] ∧
      (GetAll dbAB 0 10).result = .error (.wrapped "selecting users") ∧
      (GetAll dbAB 0 10).result ≠ .error .invalidID) :=
  ⟨by decide, by decide, by decide, by decide, by decide, by decide,
   getAll_no_input_validation dbAB 0 10 (by decide) (by decide) (by decide)
     (by decide) (by decide)⟩
